import Mathlib

/-!
# OpenXPKI web UI: the `defuse` helper, the raw button and the key/value section

A shallow embedding of

* `core/htdocs_source/app/helpers/defuse.js` (`Defuse.compute`),
* `core/htdocs_source/app/pods/components/oxi-base/button/raw/component.js`
  (`OxiButtonRawComponent`),
* `core/htdocs_source/app/pods/components/oxi-section/keyvalue/component.js`
  (`OxiSectionKeyvalueComponent`),

followed by the properties proved about them.

The browser platform (HTML parser, serializer, DOM, promises, event dispatch) is
not part of the repository.  The HTML parser and the serializer are parameters
of `Defuse.compute`.  The DOM operations the helper calls (`querySelectorAll`,
`remove`, the property reads `attributes` and `removeAttribute`) are modelled on
the tree of the parsed `body`, with template contents, comments, and the named
properties through which a form element exposes its controls.
-/

set_option autoImplicit false

namespace Defuse

/-! ## JavaScript values and `typeof` -/

/-- The values a helper argument can take, by runtime category.  A number
carries the bit pattern of its IEEE double; the payload of objects, functions
and symbols is irrelevant to `compute` and is not represented. -/
inductive JSValue where
  | null : JSValue
  | undefined : JSValue
  | boolean (b : Bool) : JSValue
  | number (bits : Nat) : JSValue
  | bigint (n : Int) : JSValue
  | string (s : String) : JSValue
  | symbol (description : String) : JSValue
  | object : JSValue
  | function : JSValue
deriving DecidableEq, Repr

/-- The result of the JavaScript `typeof` operator. -/
def JSValue.typeof : JSValue → String
  | .null => "object"
  | .undefined => "undefined"
  | .boolean _ => "boolean"
  | .number _ => "number"
  | .bigint _ => "bigint"
  | .string _ => "string"
  | .symbol _ => "symbol"
  | .object => "object"
  | .function => "function"

/-- An exception thrown by the JavaScript code. -/
inductive JSError where
  | typeError (message : String) : JSError
  | error (message : String) : JSError
deriving DecidableEq, Repr

/-- Why a run of the helper yields no value: the code threw, or the run reached
a behaviour of the browser that this development does not describe (named in
the text); in the second case nothing is asserted about the real run. -/
inductive Abort where
  | thrown (e : JSError) : Abort
  | unmodelled (what : String) : Abort
deriving DecidableEq, Repr

deriving instance DecidableEq for Except

/-! ## The DOM tree -/

/-- One entry of an element's `attributes` map. -/
structure Attr where
  name : String
  value : String
deriving DecidableEq, Repr

/-- The namespace of an element. -/
inductive Namespace where
  | html : Namespace
  | svg : Namespace
  | mathml : Namespace
deriving DecidableEq, Repr

/-- An element node without its children.  `ref` is the identity of the node
object (a `NodeList` holds such references), `tag` the local name.  `form` is
the form owner the parser gave the element, or the one its last reset gave it;
it counts unless the element is a listed element with a `form` attribute. -/
structure Element where
  ref : Nat
  ns : Namespace
  tag : String
  attrs : List Attr
  form : Option Nat
deriving DecidableEq, Repr

/-- A list of sibling nodes in first-child / next-sibling form: text nodes,
comments and elements.  An element has its child nodes and, when it is a
`template`, its template contents, which are a tree of their own: they are not
children, `querySelectorAll` does not walk them, and the serializer writes them
in place of the children. -/
inductive Dom where
  | nil : Dom
  | text (data : String) (next : Dom) : Dom
  | comment (data : String) (next : Dom) : Dom
  | element (e : Element) (children : Dom) (content : Dom) (next : Dom) : Dom
deriving DecidableEq, Repr

/-- What `parser.parseFromString(html, "text/html").body` evaluates to: the body
element of the parsed document, given by its child nodes together with the IDs
of the elements that precede them in tree order (`html`, `head` and its
descendants, `body`); or, when an element of the document is named `body`,
something else, because a document looks its named elements up before its own
properties. -/
inductive Body where
  | element (precedingIds : List String) (children : Dom) : Body
  | shadowed : Body
deriving DecidableEq, Repr

/-- The two selectors used by the helper: a type selector and `*`. -/
inductive Selector where
  | type (name : String) : Selector
  | universal : Selector
deriving DecidableEq, Repr

/-- Whether an element with the given local name matches the selector. -/
def Selector.selects : Selector → String → Bool
  | .type name, tag => tag == name
  | .universal, _ => true

/-- The elements of the tree in tree order, template contents left out. -/
def Dom.elements : Dom → List Element
  | .nil => []
  | .text _ next => next.elements
  | .comment _ next => next.elements
  | .element e children _ next => e :: (children.elements ++ next.elements)

/-- The element with the given identity, if it is in the tree. -/
def Dom.find (ref : Nat) (body : Dom) : Option Element :=
  body.elements.find? fun e => e.ref == ref

/-- The child nodes of the element with the given identity. -/
def Dom.childrenOf (ref : Nat) : Dom → Option Dom
  | .nil => none
  | .text _ next => next.childrenOf ref
  | .comment _ next => next.childrenOf ref
  | .element e children _ next =>
      if e.ref = ref then some children
      else
        match children.childrenOf ref with
        | some found => some found
        | none => next.childrenOf ref

/-- The static node list of `body.querySelectorAll(selector)`: the matching
descendant elements, in document order. -/
def querySelectorAll (sel : Selector) (body : Dom) : List Nat :=
  (body.elements.filter fun e => sel.selects e.tag).map Element.ref

/-- The effect on the body of `node.remove()` for the element `ref`: the element
leaves its parent together with its subtree.  A node that is no longer below
the body (its ancestor was removed before) leaves the body unchanged. -/
def remove (ref : Nat) : Dom → Dom
  | .nil => .nil
  | .text data next => .text data (remove ref next)
  | .comment data next => .comment data (remove ref next)
  | .element e children content next =>
      if e.ref = ref then remove ref next
      else .element e (remove ref children) content (remove ref next)

/-- The test `name.match(/^on/)`: the name starts with lowercase `on`. -/
def startsWithOn (name : String) : Bool :=
  "on".toList.isPrefixOf name.toList

/-- The test `value.match(/javascript/)`: the value contains the substring
`javascript`. -/
def containsJavascript (value : String) : Bool :=
  decide ("javascript".toList <:+: value.toList)

/-- The condition of the `if` in the attribute loop, on an attribute. -/
def isDangerous (a : Attr) : Bool :=
  startsWithOn a.name || containsJavascript a.value

/-! ## Form elements: form owner and named properties -/

/-- The value of the first attribute with the given name. -/
def getAttribute (name : String) (attrs : List Attr) : Option String :=
  (attrs.find? fun a => a.name == name).map Attr.value

/-- ASCII lowercase of a string. -/
def asciiLowercase (s : String) : String :=
  String.mk (s.toList.map Char.toLower)

/-- An HTML `form` element. -/
def isForm (e : Element) : Bool :=
  e.ns == .html && e.tag == "form"

/-- A listed element: `button`, `fieldset`, `input`, `object`, `output`,
`select` or `textarea` in the HTML namespace. -/
def isListed (e : Element) : Bool :=
  e.ns == .html &&
    ["button", "fieldset", "input", "object", "output", "select", "textarea"].contains e.tag

/-- An HTML `img` element. -/
def isImg (e : Element) : Bool :=
  e.ns == .html && e.tag == "img"

/-- An `input` element whose `type` attribute is in the Image Button state. -/
def isImageButton (e : Element) : Bool :=
  e.ns == .html && e.tag == "input" &&
    (getAttribute "type" e.attrs).map asciiLowercase == some "image"

/-- The ID of an element: the value of its `id` attribute unless it is empty. -/
def elementId (e : Element) : Option String :=
  match getAttribute "id" e.attrs with
  | some v => if v = "" then none else some v
  | none => none

/-- The form owner of an element in the current tree.  A listed element with a
`form` attribute belongs to the first element of the document that has this ID
if that element is a form, and to no form otherwise; any other element has the
owner recorded in `form`. -/
def formOwner (precedingIds : List String) (body : Dom) (e : Element) : Option Nat :=
  if isListed e then
    match getAttribute "form" e.attrs with
    | some v =>
        if precedingIds.contains v then none
        else
          match body.elements.find? fun x => elementId x == some v with
          | some f => if isForm f then some f.ref else none
          | none => none
    | none => e.form
  else e.form

/-- Whether the element has an `id` or a `name` attribute equal to `name`. -/
def hasName (name : String) (e : Element) : Bool :=
  getAttribute "id" e.attrs == some name || getAttribute "name" e.attrs == some name

/-- The listed elements a form exposes under `name`: those whose form owner is
the form and whose `id` or `name` is `name`, image buttons excepted, in tree
order. -/
def listedCandidates (precedingIds : List String) (body : Dom) (form : Nat) (name : String) :
    List Element :=
  body.elements.filter fun c =>
    isListed c && !isImageButton c && formOwner precedingIds body c == some form &&
      hasName name c

/-- The `img` elements a form exposes under `name` when no listed element has
that name. -/
def imgCandidates (precedingIds : List String) (body : Dom) (form : Nat) (name : String) :
    List Element :=
  body.elements.filter fun c =>
    isImg c && formOwner precedingIds body c == some form && hasName name c

/-- The value of a property read `element.attributes` or
`element.removeAttribute`.  On a form element a control named like the property
comes first: one control gives the control, several give a live
`RadioNodeList` (of listed elements, or of images).  Otherwise, and on every
other element, the read gives the built-in property. -/
inductive Property where
  | builtin : Property
  | control (c : Element) : Property
  | radioNodeList (images : Bool) : Property
deriving DecidableEq, Repr

/-- The property read `element[name]` for `name` one of `attributes` and
`removeAttribute`.  The map of past names of a form is empty whenever the
helper reads: it reads `attributes` once per element, and a read of
`removeAttribute` that finds a control ends the run. -/
def getProperty (precedingIds : List String) (body : Dom) (e : Element) (name : String) :
    Property :=
  if isForm e then
    match listedCandidates precedingIds body e.ref name with
    | [] =>
        match imgCandidates precedingIds body e.ref name with
        | [] => .builtin
        | [c] => .control c
        | _ => .radioNodeList true
    | [c] => .control c
    | _ => .radioNodeList false
  else .builtin

/-- The nodes of a live `RadioNodeList` of the form `e` for the name
`attributes`, in the current tree. -/
def radioNodes (precedingIds : List String) (body : Dom) (form : Nat) (images : Bool) :
    List Element :=
  if images then imgCandidates precedingIds body form "attributes"
  else listedCandidates precedingIds body form "attributes"

/-- An HTML `option` element. -/
def isOption (e : Element) : Bool :=
  e.ns == .html && e.tag == "option"

/-- The `option` elements among the nodes of a sibling list. -/
def optionsAmong : Dom → Nat
  | .nil => 0
  | .text _ next => optionsAmong next
  | .comment _ next => optionsAmong next
  | .element e _ _ next => (if isOption e then 1 else 0) + optionsAmong next

/-- The `option` children of a `select` with the given child nodes, and the
`option` children of its `optgroup` children. -/
def optionsOf : Dom → Nat
  | .nil => 0
  | .text _ next => optionsOf next
  | .comment _ next => optionsOf next
  | .element e children _ next =>
      (if isOption e then 1
       else if e.ns == .html && e.tag == "optgroup" then optionsAmong children
       else 0) + optionsOf next

/-- The `length` of a `select` with the given child nodes: the number of its
options.  The result is `none` when an `option` sits elsewhere below the
`select`, a case that is not described here. -/
def optionCount (children : Dom) : Option Nat :=
  if optionsOf children = (children.elements.filter isOption).length then
    some (optionsOf children)
  else none

/-- The property `value` of a node of a `RadioNodeList`, read for
`attrs[i].value.match(..)`.  An `input` without a `type` attribute has its
`value` attribute as value (line breaks apart); a `button` reflects its `value`
attribute; `fieldset`, `object` and `img` have no such property.  The other
controls (`select`, `textarea`, `output`, an `input` with a type) are not
described here. -/
def controlValue (c : Element) : Except Abort (Option String) :=
  if c.tag == "input" then
    match getAttribute "type" c.attrs with
    | some _ => .error (.unmodelled "value of an input element with a type attribute")
    | none =>
        let v := (getAttribute "value" c.attrs).getD ""
        if v.toList.any fun ch => ch == Char.ofNat 10 || ch == Char.ofNat 13 then
          .error (.unmodelled "value sanitization of an input element")
        else .ok (some v)
  else if c.tag == "button" then .ok (some ((getAttribute "value" c.attrs).getD ""))
  else if c.tag == "fieldset" || c.tag == "object" || c.tag == "img" then .ok none
  else .error (.unmodelled "value of a select, textarea or output element")

/-- The call `element.removeAttribute(name)` once the built-in method has been
found, on the element itself: on an HTML element the name is lowercased, the
first attribute with that name is removed, and a listed element that loses its
`form` attribute has its form owner reset to `nearest`, its nearest ancestor
form. -/
def Element.removeAttribute (name : String) (nearest : Option Nat) (e : Element) : Element :=
  let qualifiedName := if e.ns == .html then asciiLowercase name else name
  { e with
    attrs := e.attrs.eraseP fun a => a.name == qualifiedName
    form :=
      if isListed e && qualifiedName == "form" && e.attrs.any (fun a => a.name == qualifiedName)
      then nearest else e.form }

/-- The built-in `removeAttribute(name)` applied to the element `ref` of the
tree; `nearest` is the nearest form among the ancestors of the sibling list. -/
def removeAttributeAt (ref : Nat) (name : String) : Option Nat → Dom → Dom
  | _, .nil => .nil
  | nearest, .text data next => .text data (removeAttributeAt ref name nearest next)
  | nearest, .comment data next => .comment data (removeAttributeAt ref name nearest next)
  | nearest, .element e children content next =>
      .element (if e.ref = ref then e.removeAttribute name nearest else e)
        (removeAttributeAt ref name (if isForm e then some e.ref else nearest) children)
        content
        (removeAttributeAt ref name nearest next)

/-! ## The helper -/

/-- The read `attrs.length` that starts the loop, as the number of iterations:
the length of the attribute map or of the `RadioNodeList`; for a `select` the
number of its options; for `input`, `button`, `fieldset`, `output`, `textarea`
and `img` the property `length` is undefined, `undefined - 1` is `NaN` and the
loop body never runs. -/
def loopLength (precedingIds : List String) (body : Dom) (e : Element) :
    Property → Except Abort Nat
  | .builtin => .ok e.attrs.length
  | .radioNodeList images => .ok (radioNodes precedingIds body e.ref images).length
  | .control c =>
      if c.tag == "select" then
        match (body.childrenOf c.ref).bind optionCount with
        | some n => .ok n
        | none => .error (.unmodelled "options of a select element")
      else if c.tag == "object" then .error (.unmodelled "properties of an object element")
      else .ok 0

/-- The reads `attrs[i].name` and `attrs[i].value` and the condition of the
`if` in the loop, for `attrs` the given value of `element.attributes`: the name
read, and whether the condition holds.  An entry of an attribute map is an
attribute; an entry of a `RadioNodeList` is a control, whose `name` reflects its
`name` attribute; an entry of a `select` is an `option`, which has no property
`name`.  Reading a property of `undefined` throws a `TypeError`. -/
def loopEntry (precedingIds : List String) (body : Dom) (ref : Nat) (i : Nat) :
    Property → Except Abort (String × Bool)
  | .builtin =>
      match (body.find ref).bind fun e => e.attrs.get? i with
      | none => .error (.thrown (.typeError "attrs[i] is undefined"))
      | some a => .ok (a.name, isDangerous a)
  | .control _ => .error (.thrown (.typeError "attrs[i].name is undefined"))
  | .radioNodeList images =>
      match (radioNodes precedingIds body ref images).get? i with
      | none => .error (.thrown (.typeError "attrs[i] is undefined"))
      | some c =>
          let name := (getAttribute "name" c.attrs).getD ""
          if startsWithOn name then .ok (name, true)
          else
            match controlValue c with
            | .error a => .error a
            | .ok none => .error (.thrown (.typeError "attrs[i].value is undefined"))
            | .ok (some value) => .ok (name, containsJavascript value)

/-- The call `element.removeAttribute(name)`: the property is read on the
element, so on a form a control named `removeAttribute` is found in place of the
method, and calling it throws a `TypeError`. -/
def callRemoveAttribute (precedingIds : List String) (body : Dom) (ref : Nat) (name : String) :
    Except Abort Dom :=
  match body.find ref with
  | none => .ok body
  | some e =>
      match getProperty precedingIds body e "removeAttribute" with
      | .builtin => .ok (removeAttributeAt ref name none body)
      | .control c =>
          if c.tag == "object" then .error (.unmodelled "call of an object element")
          else .error (.thrown (.typeError "element.removeAttribute is not a function"))
      | .radioNodeList _ =>
          .error (.thrown (.typeError "element.removeAttribute is not a function"))

/-- The loop `for (let i = attrs.length - 1; i >= 0; i--)` for the element `ref`
and the value `attrs` that `element.attributes` had.  The first argument is
`i + 1`; `attrs` is live, so each iteration reads the current tree. -/
def stripLoop (precedingIds : List String) (ref : Nat) (attrs : Property) :
    Nat → Dom → Except Abort Dom
  | 0, body => .ok body
  | i + 1, body =>
      match loopEntry precedingIds body ref i attrs with
      | .error a => .error a
      | .ok (name, true) =>
          match callRemoveAttribute precedingIds body ref name with
          | .error a => .error a
          | .ok body1 => stripLoop precedingIds ref attrs i body1
      | .ok (_, false) => stripLoop precedingIds ref attrs i body

/-- One iteration of `for (let element of body.querySelectorAll("*"))`:
`let attrs = element.attributes`, then the loop. -/
def defuseElement (precedingIds : List String) (ref : Nat) (body : Dom) : Except Abort Dom :=
  match body.find ref with
  | none => .ok body
  | some e =>
      let attrs := getProperty precedingIds body e "attributes"
      match loopLength precedingIds body e attrs with
      | .error a => .error a
      | .ok length => stripLoop precedingIds ref attrs length body

/-- The first loop of `compute`: every element of the static list
`body.querySelectorAll("script")` is removed in turn. -/
def removeScripts (body : Dom) : Dom :=
  (querySelectorAll (.type "script") body).foldl (fun b script => remove script b) body

/-- The second loop of `compute`, over the static list
`body.querySelectorAll("*")`. -/
def stripAll (precedingIds : List String) (body : Dom) : Except Abort Dom :=
  (querySelectorAll .universal body).foldlM
    (fun b element => defuseElement precedingIds element b) body

/-- The two loops of `compute` on the child nodes of the parsed body. -/
def defuseBody (precedingIds : List String) (body : Dom) : Except Abort Dom :=
  stripAll precedingIds (removeScripts body)

/-- The helper `Defuse.compute([html])`.  `parseFromString html` is
`new DOMParser().parseFromString(html, "text/html").body` and `innerHTML` is the
serializer behind `body.innerHTML`. -/
def compute (parseFromString : String → Body) (innerHTML : Dom → String)
    (html : JSValue) : Except Abort JSValue :=
  if html = .null ∨ html = .undefined then .ok (.string "")
  else if html.typeof = "number" then .ok html
  else
    match html with
    | .string s =>
        -- for strings...
        match parseFromString s with
        | .shadowed => .error (.unmodelled "document.body is a named element")
        | .element precedingIds children =>
            match defuseBody precedingIds children with
            | .ok body => .ok (.string (innerHTML body))
            | .error a => .error a
    | other =>
        -- typeof html !== 'string'
        .ok (.string ("[" ++ other.typeof ++ "]"))

/-! ## What the serializer writes, and the parsed trees of some inputs -/

/-- The elements the serializer of `innerHTML` writes, in the order it writes
them: for a `template` the template contents stand in for the children. -/
def Dom.serialized : Dom → List Element
  | .nil => []
  | .text _ next => next.serialized
  | .comment _ next => next.serialized
  | .element e children content next =>
      e :: ((if e.ns == .html && e.tag == "template" then content.serialized
             else children.serialized) ++ next.serialized)

/-- The parsed body of `<p>t</p><template><script>alert(1)</script></template>`:
the `script` is in the template contents. -/
def templateBody : Dom :=
  .element ⟨0, .html, "p", [], none⟩ (.text "t" .nil) .nil
    (.element ⟨1, .html, "template", [], none⟩ .nil
      (.element ⟨2, .html, "script", [], none⟩ (.text "alert(1)" .nil) .nil .nil) .nil)

/-- The parsed body of `<form onclick="alert(1)"><input name="attributes"></form>`:
the form is the form owner of the `input`. -/
def shadowedFormBody : Dom :=
  .element ⟨0, .html, "form", [⟨"onclick", "alert(1)"⟩], none⟩
    (.element ⟨1, .html, "input", [⟨"name", "attributes"⟩], some 0⟩ .nil .nil .nil) .nil .nil

/-- The parsed body of `<form title="t"><input id="attributes" name="title"
value="javascript"><input name="attributes"></form>`. -/
def radioFormBody : Dom :=
  .element ⟨0, .html, "form", [⟨"title", "t"⟩], none⟩
    (.element
      ⟨1, .html, "input", [⟨"id", "attributes"⟩, ⟨"name", "title"⟩, ⟨"value", "javascript"⟩],
        some 0⟩ .nil .nil
      (.element ⟨2, .html, "input", [⟨"name", "attributes"⟩], some 0⟩ .nil .nil .nil))
    .nil .nil

/-- The parsed body of `<p title="t">x</p><form onclick="x"><input
name="removeAttribute"></form>`. -/
def throwingFormBody : Dom :=
  .element ⟨0, .html, "p", [⟨"title", "t"⟩], none⟩ (.text "x" .nil) .nil
    (.element ⟨1, .html, "form", [⟨"onclick", "x"⟩], none⟩
      (.element ⟨2, .html, "input", [⟨"name", "removeAttribute"⟩], some 1⟩ .nil .nil .nil)
      .nil .nil)

/-- The parsed body of `<form id="javascript" onclick="x"></form><input
form="javascript" name="attributes">`: the `input` belongs to the form through
its `form` attribute. -/
def staleFormBody : Dom :=
  .element ⟨0, .html, "form", [⟨"id", "javascript"⟩, ⟨"onclick", "x"⟩], none⟩ .nil .nil
    (.element ⟨1, .html, "input", [⟨"form", "javascript"⟩, ⟨"name", "attributes"⟩], none⟩
      .nil .nil .nil)

/-- A parsed body without forms and templates: the markup
`<script>x</script><div onclick="x()" onmouseover="y()">hi</div>` followed by a
comment and `<a href="javascript:x()" title="JavaScript Guide" target="_blank">go<b>!</b></a>`. -/
def sampleBody : Dom :=
  .element ⟨0, .html, "script", [], none⟩ (.text "x" .nil) .nil
    (.element ⟨1, .html, "div", [⟨"onclick", "x()"⟩, ⟨"onmouseover", "y()"⟩], none⟩
      (.text "hi" .nil) .nil
      (.comment "c"
        (.element
          ⟨2, .html, "a",
            [⟨"href", "javascript:x()"⟩, ⟨"title", "JavaScript Guide"⟩, ⟨"target", "_blank"⟩],
            none⟩
          (.text "go" (.element ⟨3, .html, "b", [], none⟩ (.text "!" .nil) .nil .nil)) .nil
          .nil)))

end Defuse

namespace OxiButtonRawComponent

open Defuse (JSError)

/-! ## The raw button component: data model -/

/-- The `confirm` entry of a button descriptor. -/
structure Confirm where
  label : String
  description : String
  confirm_label : Option String
  cancel_label : Option String
deriving DecidableEq, Repr

/-- The button descriptor `this.args.button`.  An absent property is `none`.
`onClick` holds the identity of the callback; `loading` is the flag the
component writes back onto the descriptor (absent reads as `false`). -/
structure Button where
  label : String
  format : Option String
  tooltip : Option String
  disabled : Option Bool
  href : Option String
  target : Option String
  confirm : Option Confirm
  onClick : Option Nat
  action : Option String
  page : Option String
  loading : Bool
deriving DecidableEq, Repr

/-- JavaScript truthiness of an optional string property: `undefined` and the
empty string are falsy, every other string is truthy. -/
def truthy : Option String → Bool
  | none => false
  | some s => s != ""

/-- A click event as far as the component reads it: `event.target`, the
identity of the element the event was dispatched on. -/
structure ClickEvent where
  target : Nat
deriving DecidableEq, Repr

/-- How a call of `click` or `executeAction` completes. -/
inductive Completion where
  | returnUndefined : Completion
  | returnFalse : Completion
  | throw (e : JSError) : Completion
deriving DecidableEq, Repr

/-- What the component does to the outside, in the order it happens: writes to
the two presentation flags, calls of the three collaborators with the values
passed (`button.onClick(button)`, `updateRequest` with `action: button.action`,
`transitionTo("openxpki", button.page)`), the synthetic click it dispatches, and
the completion of the click listener run by that dispatch. -/
inductive Effect where
  | setLoading (value : Bool) : Effect
  | setShowConfirmDialog (value : Bool) : Effect
  | onClick (callback : Nat) (argument : Button) : Effect
  | updateRequest (action : Option String) : Effect
  | transitionTo (route : String) (page : Option String) : Effect
  | dispatchEvent (target : Nat) : Effect
  | listenerDone (completion : Completion) : Effect
deriving DecidableEq, Repr

/-- The handler attached to the promise a collaborator returned.  The handler
body is always `() => button.loading = false`. -/
inductive Reaction where
  | finally : Reaction
  | then : Reaction
deriving DecidableEq, Repr

/-- How a promise settles. -/
inductive Settlement where
  | fulfilled : Settlement
  | rejected : Settlement
deriving DecidableEq, Repr

/-- The component together with the descriptor it shares with its caller, the
log of its effects and the promise handlers that have not run yet. -/
structure State where
  button : Button
  showConfirmDialog : Bool
  skipClickHandler : Bool
  clickTarget : Option Nat
  log : List Effect
  reactions : List Reaction
deriving DecidableEq, Repr

/-- A write to `button.loading`. -/
def setLoading (value : Bool) (s : State) : State :=
  { s with button := { s.button with loading := value }, log := s.log ++ [.setLoading value] }

/-- A write to `this.showConfirmDialog`. -/
def setShowConfirmDialog (value : Bool) (s : State) : State :=
  { s with showConfirmDialog := value, log := s.log ++ [.setShowConfirmDialog value] }

/-- A call to the outside, appended to the log. -/
def emit (e : Effect) (s : State) : State :=
  { s with log := s.log ++ [e] }

/-- The getter `isLink`: `this.args.button.href ? true : false`. -/
def isLink (s : State) : Bool :=
  truthy s.button.href

/-- The action `resetConfirmState()`. -/
def resetConfirmState (s : State) : State :=
  setShowConfirmDialog false (setLoading false s)

mutual

/-- The action `click(event)`.  The first argument bounds the depth of nested
handler calls; `none` means the bound was reached. -/
def click : Nat → Option ClickEvent → State → Option (State × Completion)
  | 0, _, _ => none
  | fuel + 1, event, s =>
      if s.skipClickHandler then
        some ({ s with skipClickHandler := false }, .returnUndefined)
      else
        -- only links: save <a> element to create new click event in executeAction() later on
        let s1 := { s with clickTarget := event.map ClickEvent.target }
        if s1.button.confirm.isSome then
          some (setShowConfirmDialog true (setLoading true s1), .returnFalse)
        else
          match executeAction fuel s1 with
          | none => none
          | some (s2, .throw e) => some (s2, .throw e)
          | some (s2, _) =>
              -- cancel click event
              some (s2, .returnFalse)

/-- The action `executeAction()`.  In link mode `dispatchEvent` runs the click
listener of the component synchronously on the recorded target ("this will
result in a (second) call to click()"); an exception of a listener does not
reach the caller of `dispatchEvent`.  In button mode the collaborator that is
called returns a promise, on which the handler is registered. -/
def executeAction : Nat → State → Option (State × Completion)
  | 0, _ => none
  | fuel + 1, s =>
      let s1 := resetConfirmState s
      if isLink s1 then
        -- link mode
        let s2 := { s1 with skipClickHandler := true }
        match s2.clickTarget with
        | none => some (s2, .throw (.typeError "this.clickTarget is undefined"))
        | some target =>
            match click fuel (some ⟨target⟩) (emit (.dispatchEvent target) s2) with
            | none => none
            | some (s3, completion) => some (emit (.listenerDone completion) s3, .returnUndefined)
      else
        -- button mode
        let s2 := setLoading true s1
        match s2.button.onClick with
        | some callback =>
            some ({ emit (.onClick callback s2.button) s2 with
                    reactions := s2.reactions ++ [.finally] }, .returnUndefined)
        | none =>
            if truthy s2.button.action then
              some ({ emit (.updateRequest s2.button.action) s2 with
                      reactions := s2.reactions ++ [.finally] }, .returnUndefined)
            else if truthy s2.button.page then
              some ({ emit (.transitionTo "openxpki" s2.button.page) s2 with
                      reactions := s2.reactions ++ [.then] }, .returnUndefined)
            else
              some (s2, .throw (.error
                "oxi-button: executeAction - nothing to do. No 'action', 'page' or 'onClick' specified"))

end

/-- The settlement of the promise behind the pending handler number `i`: a
`finally` handler runs on either outcome, a `then` handler only on fulfilment;
either way the handler is no longer pending. -/
def settle (i : Nat) (outcome : Settlement) (s : State) : State :=
  match s.reactions.get? i with
  | none => s
  | some reaction =>
      let s1 := { s with reactions := s.reactions.eraseIdx i }
      match reaction, outcome with
      | .finally, _ => setLoading false s1
      | .then, .fulfilled => setLoading false s1
      | .then, .rejected => s1

/-- The collaborator calls in a log: `onClick`, the action invoker and the
navigator. -/
def collaboratorCalls (log : List Effect) : List Effect :=
  log.filter fun e =>
    match e with
    | .onClick _ _ => true
    | .updateRequest _ => true
    | .transitionTo _ _ => true
    | _ => false

/-- A descriptor with only a label; the examples set further fields on it. -/
def plainButton : Button :=
  { label := "Go", format := none, tooltip := none, disabled := none, href := none,
    target := none, confirm := none, onClick := none, action := none, page := none,
    loading := false }

/-- An action-mode descriptor with a backend action and a page. -/
def workflowButton : Button :=
  { plainButton with action := some "workflow", page := some "home" }

/-- An action-mode descriptor whose `action` is the empty string. -/
def emptyActionButton : Button :=
  { plainButton with action := some "" }

/-- A link-mode descriptor without a confirm entry. -/
def linkButton : Button :=
  { plainButton with href := some "https://www.openxpki.org", target := some "_blank" }

/-- A link-mode descriptor with a confirm entry. -/
def confirmLinkButton : Button :=
  { linkButton with confirm := some ⟨"Really sure?", "Think!", none, none⟩ }

/-- An action-mode descriptor with an `onClick` callback. -/
def callbackButton : Button :=
  { plainButton with onClick := some 1 }

/-- An action-mode descriptor with a page only. -/
def pageButton : Button :=
  { plainButton with page := some "home" }

/-- The state of a freshly created component for the given descriptor. -/
def initial (button : Button) : State :=
  { button := button, showConfirmDialog := false, skipClickHandler := false,
    clickTarget := none, log := [], reactions := [] }

/-! ## The raw button component: style lookup -/

/-- The own properties of the object literal `format2css`: the mapping of format
codes to CSS classes. -/
def format2css : List (String × String) :=
  [("primary", "btn-primary"),
   ("submit", "oxi-btn-submit"),
   ("loading", "oxi-btn-loading"),
   ("cancel", "oxi-btn-cancel"),
   ("reset", "oxi-btn-reset"),
   ("expected", "oxi-btn-expected"),
   ("failure", "oxi-btn-failure"),
   ("optional", "oxi-btn-optional"),
   ("alternative", "oxi-btn-alternative"),
   ("exceptional", "oxi-btn-exceptional"),
   ("terminate", "oxi-btn-terminate"),
   ("tile", "oxi-btn-tile")]

/-- The names of the properties that an object literal such as `format2css`
inherits from `Object.prototype`; reading one of them yields a function or an
object, not `undefined`. -/
def objectPrototypeKeys : List String :=
  ["constructor", "hasOwnProperty", "isPrototypeOf", "propertyIsEnumerable",
   "toLocaleString", "toString", "valueOf", "__proto__", "__defineGetter__",
   "__defineSetter__", "__lookupGetter__", "__lookupSetter__"]

/-- The value of a property read on `format2css`, which is also what the getter
`additionalCssClass` can return. -/
inductive CssClass where
  | string (css : String) : CssClass
  | inherited (key : String) : CssClass
  | undefined : CssClass
deriving DecidableEq, Repr

/-- The property read `format2css[key]`: an own property, else a property of the
prototype, else `undefined`. -/
def format2cssGet (key : String) : CssClass :=
  match format2css.lookup key with
  | some css => .string css
  | none => if key ∈ objectPrototypeKeys then .inherited key else .undefined

/-- The message of the `console.error` call in `additionalCssClass`. -/
def unknownFormatMessage (label format : String) : String :=
  "oxi-button: button \"" ++ label ++ "\" has unknown format: \"" ++ format ++ "\""

/-- The getter `additionalCssClass`, with the messages it passes to
`console.error`. -/
def additionalCssClass (s : State) : CssClass × List String :=
  if s.button.loading then (.string "oxi-btn-loading", [])
  else
    match s.button.format with
    | none => (.string "btn-light border-secondary", [])
    | some format =>
        if format = "" then (.string "btn-light border-secondary", [])
        else
          match format2cssGet format with
          | .undefined =>
              -- cssClass === undefined, then cssClass ?? ""
              (.string "", [unknownFormatMessage s.button.label format])
          | cssClass => (cssClass, [])

/-- A descriptor with a format outside the table. -/
def bogusFormatButton : Button :=
  { plainButton with format := some "bogus" }

/-- A descriptor whose format names a property of `Object.prototype`. -/
def constructorFormatButton : Button :=
  { plainButton with format := some "constructor" }

end OxiButtonRawComponent

namespace OxiSectionKeyvalueComponent

open Defuse (JSValue)

/-! ## The key/value section component -/

/-- One entry of `def.data`, as far as the getter `items` reads or writes it.  An
absent property is `none`; an absent `value` is `JSValue.undefined`. -/
structure Item where
  label : Option String
  format : Option String
  value : JSValue
  isHead : Option Nat
deriving DecidableEq, Repr

/-- The section definition `this.args.def`; `data` may be absent. -/
structure SectionDef where
  data : Option (List Item)
deriving DecidableEq, Repr

/-- The body of the `for` loop for one entry: `if (i.format === 'head')` then
`i.isHead = 1`. -/
def markHead (i : Item) : Item :=
  if i.format = some "head" then { i with isHead := some 1 } else i

/-- The getter `items`.  The loop writes to the entries of `def.data` in place,
so the result is the section definition after the call together with the
returned array. -/
def items (d : SectionDef) : SectionDef × List Item :=
  -- this.args.def.data || []
  let items := (d.data.getD []).map markHead
  ({ data := d.data.map fun entries => entries.map markHead },
    -- hide items where value (after formatting) is empty
    items.filter fun item => item.format != some "raw" || item.value != .string "")

/-- A section with a head line, an empty raw entry and two more entries. -/
def sampleSection : SectionDef :=
  { data := some
      [⟨some "Certificate", some "head", .undefined, none⟩,
       ⟨some "Subject", none, .string "CN=a", none⟩,
       ⟨some "Notes", some "raw", .string "", none⟩,
       ⟨some "Body", some "raw", .string "<b>x</b>", none⟩] }

end OxiSectionKeyvalueComponent

namespace Defuse

/-! ## `Defuse.compute` on inputs where it misses what it is documented to remove -/

/-- On `sampleBody`, which has no form and no template, the two loops remove the
`script` element with its text and the four attributes that match, and keep the
comment, `title="JavaScript Guide"` and `target`. -/
theorem defuseBody_sampleBody :
    defuseBody [] sampleBody =
      .ok (.element ⟨1, .html, "div", [], none⟩ (.text "hi" .nil) .nil
        (.comment "c"
          (.element
            ⟨2, .html, "a", [⟨"title", "JavaScript Guide"⟩, ⟨"target", "_blank"⟩], none⟩
            (.text "go" (.element ⟨3, .html, "b", [], none⟩ (.text "!" .nil) .nil .nil)) .nil
            .nil))) := by
  decide

/-- C1 fails on `<p>t</p><template><script>alert(1)</script></template>`:
`querySelectorAll("script")` does not reach the template contents, both loops
leave the tree as it is, and the tree handed to the serializer, which writes the
template contents, still has the `script` element. -/
theorem compute_keeps_template_script (innerHTML : Dom → String) :
    querySelectorAll (.type "script") templateBody = [] ∧
    defuseBody [] templateBody = .ok templateBody ∧
    (∃ e ∈ templateBody.serialized, e.tag = "script") ∧
    compute (fun _ => .element [] templateBody) innerHTML
        (.string "<p>t</p><template><script>alert(1)</script></template>") =
      .ok (.string (innerHTML templateBody)) := by
  have h : defuseBody [] templateBody = .ok templateBody := by decide
  refine ⟨by decide, h, by decide, ?_⟩
  simp [compute, JSValue.typeof, h]

/-- C2 fails on `<form onclick="alert(1)"><input name="attributes"></form>`: on
the form `element.attributes` is the `input` named `attributes`, whose `length`
is undefined, so the loop body never runs and the tree handed to the serializer
still has the `onclick` attribute on the form. -/
theorem compute_keeps_onclick_on_form (innerHTML : Dom → String) :
    getProperty [] shadowedFormBody ⟨0, .html, "form", [⟨"onclick", "alert(1)"⟩], none⟩
        "attributes" =
      .control ⟨1, .html, "input", [⟨"name", "attributes"⟩], some 0⟩ ∧
    defuseBody [] shadowedFormBody = .ok shadowedFormBody ∧
    (∃ e ∈ shadowedFormBody.serialized, ∃ a ∈ e.attrs, startsWithOn a.name = true) ∧
    compute (fun _ => .element [] shadowedFormBody) innerHTML
        (.string "<form onclick=\"alert(1)\"><input name=\"attributes\"></form>") =
      .ok (.string (innerHTML shadowedFormBody)) := by
  have h : defuseBody [] shadowedFormBody = .ok shadowedFormBody := by decide
  refine ⟨by decide, h, by decide, ?_⟩
  simp [compute, JSValue.typeof, h]

/-- C3 fails on `<form title="t"><input id="attributes" name="title"
value="javascript"><input name="attributes"></form>`: on the form
`element.attributes` is the `RadioNodeList` of the two controls, the loop reads
name `title` and value `javascript` from the first control and calls
`form.removeAttribute("title")`, so the form loses an attribute whose name does
not start with `on` and whose value does not contain `javascript`.  On
`<p title="t">x</p><form onclick="x"><input name="removeAttribute"></form>` the
call of `removeAttribute` throws a `TypeError` and nothing is returned. -/
theorem compute_removes_safe_attribute (innerHTML : Dom → String) :
    isDangerous ⟨"title", "t"⟩ = false ∧
    getProperty [] radioFormBody ⟨0, .html, "form", [⟨"title", "t"⟩], none⟩ "attributes" =
      .radioNodeList false ∧
    defuseBody [] radioFormBody =
      .ok (.element ⟨0, .html, "form", [], none⟩
        (.element ⟨1, .html, "input", [⟨"id", "attributes"⟩, ⟨"name", "title"⟩], some 0⟩
          .nil .nil
          (.element ⟨2, .html, "input", [⟨"name", "attributes"⟩], some 0⟩ .nil .nil .nil))
        .nil .nil) ∧
    compute (fun _ => .element [] radioFormBody) innerHTML
        (.string ("<form title=\"t\"><input id=\"attributes\" name=\"title\" " ++
          "value=\"javascript\"><input name=\"attributes\"></form>")) =
      .ok (.string (innerHTML
        (.element ⟨0, .html, "form", [], none⟩
          (.element ⟨1, .html, "input", [⟨"id", "attributes"⟩, ⟨"name", "title"⟩], some 0⟩
            .nil .nil
            (.element ⟨2, .html, "input", [⟨"name", "attributes"⟩], some 0⟩ .nil .nil .nil))
          .nil .nil))) ∧
    compute (fun _ => .element [] throwingFormBody) innerHTML
        (.string "<p title=\"t\">x</p><form onclick=\"x\"><input name=\"removeAttribute\"></form>") =
      .error (.thrown (.typeError "element.removeAttribute is not a function")) := by
  have h1 : defuseBody [] radioFormBody =
      .ok (.element ⟨0, .html, "form", [], none⟩
        (.element ⟨1, .html, "input", [⟨"id", "attributes"⟩, ⟨"name", "title"⟩], some 0⟩
          .nil .nil
          (.element ⟨2, .html, "input", [⟨"name", "attributes"⟩], some 0⟩ .nil .nil .nil))
        .nil .nil) := by decide
  have h2 : defuseBody [] throwingFormBody =
      .error (.thrown (.typeError "element.removeAttribute is not a function")) := by decide
  refine ⟨by decide, by decide, h1, ?_, ?_⟩
  · simp [compute, JSValue.typeof, h1]
  · simp [compute, JSValue.typeof, h2]

/-- C4: for a non-string input `compute` does not throw: `null` and `undefined`
give the empty string, a number is returned as the same number, and every other
non-string value gives `[` followed by its `typeof` name and `]`, which is
`[object]` for an object. -/
theorem compute_non_string (parseFromString : String → Body) (innerHTML : Dom → String)
    (html : JSValue) (h : html.typeof ≠ "string") :
    (∃ v, compute parseFromString innerHTML html = .ok v) ∧
    (html = .null ∨ html = .undefined →
      compute parseFromString innerHTML html = .ok (.string "")) ∧
    (∀ bits, html = .number bits →
      compute parseFromString innerHTML html = .ok (.number bits)) ∧
    (html ≠ .null → html ≠ .undefined → html.typeof ≠ "number" →
      compute parseFromString innerHTML html = .ok (.string ("[" ++ html.typeof ++ "]"))) ∧
    (html = .object → compute parseFromString innerHTML html = .ok (.string "[object]")) := by
  cases html <;> simp [compute, JSValue.typeof] at h ⊢

/-- Witness for C4 at an object: the result is the string `[object]`. -/
theorem compute_non_string_witness :
    JSValue.object.typeof ≠ "string" ∧
      compute (fun _ => .element [] sampleBody) (fun _ => "") .object =
        .ok (.string "[object]") :=
  ⟨by decide,
    (compute_non_string (fun _ => .element [] sampleBody) (fun _ => "") .object
      (by decide)).2.2.2.2 rfl⟩

/-- C19 fails on `<form id="javascript" onclick="x"></form><input
form="javascript" name="attributes">`: the first pass skips the form, which the
`input` shadows, and removes the `form` attribute of the `input`; on the tree it
produced the `input` no longer belongs to the form, and a second pass removes
`id` and `onclick` from the form. -/
theorem defuseBody_second_pass_differs :
    defuseBody [] staleFormBody =
      .ok (.element ⟨0, .html, "form", [⟨"id", "javascript"⟩, ⟨"onclick", "x"⟩], none⟩ .nil .nil
        (.element ⟨1, .html, "input", [⟨"name", "attributes"⟩], none⟩ .nil .nil .nil)) ∧
    defuseBody []
        (.element ⟨0, .html, "form", [⟨"id", "javascript"⟩, ⟨"onclick", "x"⟩], none⟩ .nil .nil
          (.element ⟨1, .html, "input", [⟨"name", "attributes"⟩], none⟩ .nil .nil .nil)) =
      .ok (.element ⟨0, .html, "form", [], none⟩ .nil .nil
        (.element ⟨1, .html, "input", [⟨"name", "attributes"⟩], none⟩ .nil .nil .nil)) := by
  decide

end Defuse

namespace OxiButtonRawComponent

/-! ## Properties of the raw button component -/

/-- C5, as the code has it: in action mode (`href` absent or empty)
`executeAction` first sets `loading` to true and then calls exactly one
collaborator, chosen by truthiness in the order `onClick`, `action`, `page`:
`onClick` with the descriptor when it is present; otherwise the action invoker
with the action name when `action` is present and not empty; otherwise the
navigator with the page when `page` is present and not empty. -/
theorem executeAction_dispatch (fuel : Nat) (s : State) (hmode : isLink s = false) :
    (∀ callback, s.button.onClick = some callback →
      ∃ s1, executeAction (fuel + 1) s = some (s1, .returnUndefined) ∧
        s1.log = s.log ++ [.setLoading false, .setShowConfirmDialog false, .setLoading true,
          .onClick callback { s.button with loading := true }]) ∧
    (∀ action, s.button.onClick = none → s.button.action = some action → action ≠ "" →
      ∃ s1, executeAction (fuel + 1) s = some (s1, .returnUndefined) ∧
        s1.log = s.log ++ [.setLoading false, .setShowConfirmDialog false, .setLoading true,
          .updateRequest (some action)]) ∧
    (∀ page, s.button.onClick = none → truthy s.button.action = false →
      s.button.page = some page → page ≠ "" →
      ∃ s1, executeAction (fuel + 1) s = some (s1, .returnUndefined) ∧
        s1.log = s.log ++ [.setLoading false, .setShowConfirmDialog false, .setLoading true,
          .transitionTo "openxpki" (some page)]) := by
  refine ⟨?_, ?_, ?_⟩
  · intro callback h
    simp_all [executeAction, isLink, resetConfirmState, setLoading, setShowConfirmDialog, emit]
  · intro action h1 h2 h3
    simp_all [executeAction, isLink, resetConfirmState, setLoading, setShowConfirmDialog, emit,
      truthy]
  · intro page h1 h2 h3 h4
    simp_all [executeAction, isLink, resetConfirmState, setLoading, setShowConfirmDialog, emit,
      truthy]

/-- Witness for C5 on a descriptor with `action: "workflow"` and a page: only
the action invoker is called. -/
theorem executeAction_dispatch_witness :
    isLink (initial workflowButton) = false ∧
      ∃ s1, executeAction 1 (initial workflowButton) = some (s1, .returnUndefined) ∧
        s1.log = [] ++ [.setLoading false, .setShowConfirmDialog false, .setLoading true,
          .updateRequest (some "workflow")] :=
  ⟨by decide,
    (executeAction_dispatch 0 (initial workflowButton) (by decide)).2.1 "workflow"
      (by decide) (by decide) (by decide)⟩

/-- Counterexample to C5 as stated: on a descriptor without `href` and `onClick`
whose `action` is present but is the empty string, the action invoker is not
called: with no page `executeAction` throws and calls nothing, with a page it
calls the navigator. -/
theorem executeAction_empty_action :
    (initial emptyActionButton).button.href = none ∧
    (initial emptyActionButton).button.onClick = none ∧
    (initial emptyActionButton).button.action = some "" ∧
    (initial emptyActionButton).button.page = none ∧
    (executeAction 1 (initial emptyActionButton)).map
        (fun r => (collaboratorCalls r.1.log, r.2)) =
      some ([], .throw (.error
        "oxi-button: executeAction - nothing to do. No 'action', 'page' or 'onClick' specified")) ∧
    (executeAction 1 (initial { emptyActionButton with page := some "home" })).map
        (fun r => (collaboratorCalls r.1.log, r.2)) =
      some ([.transitionTo "openxpki" (some "home")], .returnUndefined) := by
  decide

/-- C6: in action mode with no `href`, `onClick`, `action` or `page` on the
descriptor, `executeAction` throws an error and calls no collaborator; `click`
does not catch the error either. -/
theorem executeAction_nothing_to_do (fuel : Nat) (s : State)
    (hhref : s.button.href = none) (honClick : s.button.onClick = none)
    (haction : s.button.action = none) (hpage : s.button.page = none) :
    (∃ s1 message, executeAction (fuel + 1) s = some (s1, .throw (.error message)) ∧
      s1.log = s.log ++ [.setLoading false, .setShowConfirmDialog false, .setLoading true] ∧
      collaboratorCalls s1.log = collaboratorCalls s.log ∧
      s1.reactions = s.reactions) ∧
    (∀ event, s.skipClickHandler = false → s.button.confirm = none →
      ∃ s1 message, click (fuel + 2) event s = some (s1, .throw (.error message)) ∧
        collaboratorCalls s1.log = collaboratorCalls s.log) := by
  refine ⟨?_, ?_⟩
  · simp [executeAction, isLink, resetConfirmState, setLoading, setShowConfirmDialog, emit,
      truthy, hhref, honClick, haction, hpage, collaboratorCalls, List.filter_append]
  · intro event hskip hconfirm
    simp [click, executeAction, isLink, resetConfirmState, setLoading, setShowConfirmDialog,
      emit, truthy, hhref, honClick, haction, hpage, hskip, hconfirm, collaboratorCalls,
      List.filter_append]

/-- Witness for C6 on the descriptor that has only a label. -/
theorem executeAction_nothing_to_do_witness :
    (initial plainButton).button.href = none ∧
      ∃ s1 message, executeAction 1 (initial plainButton) = some (s1, .throw (.error message)) ∧
        s1.log = [] ++ [.setLoading false, .setShowConfirmDialog false, .setLoading true] ∧
        collaboratorCalls s1.log = collaboratorCalls [] ∧
        s1.reactions = [] :=
  ⟨rfl, (executeAction_nothing_to_do 0 (initial plainButton) rfl rfl rfl rfl).1⟩

/-- C7: with `confirm` configured and the replay flag not set, `click` sets
`loading` to true and opens the confirm dialog, does nothing else (no
collaborator call, no dispatched event, no promise handler), and returns
false. -/
theorem click_opens_confirm (fuel : Nat) (event : Option ClickEvent) (s : State)
    (confirm : Confirm) (hconfirm : s.button.confirm = some confirm)
    (hskip : s.skipClickHandler = false) :
    ∃ s1, click (fuel + 1) event s = some (s1, .returnFalse) ∧
      s1.button = { s.button with loading := true } ∧
      s1.showConfirmDialog = true ∧
      s1.log = s.log ++ [.setLoading true, .setShowConfirmDialog true] ∧
      s1.reactions = s.reactions ∧
      s1.skipClickHandler = false ∧
      s1.clickTarget = event.map ClickEvent.target := by
  simp [click, setLoading, setShowConfirmDialog, hconfirm, hskip]

/-- Witness for C7 on a link with a confirm entry. -/
theorem click_opens_confirm_witness :
    (initial confirmLinkButton).skipClickHandler = false ∧
      ∃ s1, click 1 (some ⟨7⟩) (initial confirmLinkButton) = some (s1, .returnFalse) ∧
        s1.button = { (initial confirmLinkButton).button with loading := true } ∧
        s1.showConfirmDialog = true ∧
        s1.log = [] ++ [.setLoading true, .setShowConfirmDialog true] ∧
        s1.reactions = [] ∧
        s1.skipClickHandler = false ∧
        s1.clickTarget = (some (⟨7⟩ : ClickEvent)).map ClickEvent.target :=
  ⟨rfl, click_opens_confirm 0 (some ⟨7⟩) (initial confirmLinkButton)
    ⟨"Really sure?", "Think!", none, none⟩ rfl rfl⟩

theorem eraseIdx_append_singleton (l : List Reaction) (r : Reaction) :
    (l ++ [r]).eraseIdx l.length = l := by
  induction l with
  | nil => rfl
  | cons x xs ih => simp [List.eraseIdx, ih]

/-- C8: when `executeAction` dispatches to `onClick` or to the backend action,
`loading` is set to true before the call and is true when `executeAction`
returns, a `finally` handler is pending, and when the returned promise settles,
fulfilled or rejected, the handler sets `loading` to false.  The `onClick`
callback is called once, with the descriptor as argument. -/
theorem executeAction_loading_until_settled (fuel : Nat) (s : State)
    (hmode : isLink s = false) :
    (∀ callback, s.button.onClick = some callback →
      ∃ s1, executeAction (fuel + 1) s = some (s1, .returnUndefined) ∧
        s1.button.loading = true ∧
        s1.log = s.log ++ [.setLoading false, .setShowConfirmDialog false, .setLoading true,
          .onClick callback s1.button] ∧
        s1.reactions = s.reactions ++ [.finally] ∧
        ∀ outcome, (settle s.reactions.length outcome s1).button.loading = false ∧
          (settle s.reactions.length outcome s1).log = s1.log ++ [.setLoading false] ∧
          (settle s.reactions.length outcome s1).reactions = s.reactions) ∧
    (∀ action, s.button.onClick = none → s.button.action = some action → action ≠ "" →
      ∃ s1, executeAction (fuel + 1) s = some (s1, .returnUndefined) ∧
        s1.button.loading = true ∧
        s1.log = s.log ++ [.setLoading false, .setShowConfirmDialog false, .setLoading true,
          .updateRequest (some action)] ∧
        s1.reactions = s.reactions ++ [.finally] ∧
        ∀ outcome, (settle s.reactions.length outcome s1).button.loading = false ∧
          (settle s.reactions.length outcome s1).log = s1.log ++ [.setLoading false] ∧
          (settle s.reactions.length outcome s1).reactions = s.reactions) := by
  refine ⟨?_, ?_⟩
  · intro callback h
    simp_all [executeAction, isLink, resetConfirmState, setLoading, setShowConfirmDialog, emit,
      settle, eraseIdx_append_singleton]
  · intro action h1 h2 h3
    simp_all [executeAction, isLink, resetConfirmState, setLoading, setShowConfirmDialog, emit,
      truthy, settle, eraseIdx_append_singleton]

/-- Witness for C8 on a descriptor with an `onClick` callback. -/
theorem executeAction_loading_until_settled_witness :
    isLink (initial callbackButton) = false ∧
      ∃ s1, executeAction 1 (initial callbackButton) = some (s1, .returnUndefined) ∧
        s1.button.loading = true ∧
        s1.log = [] ++ [.setLoading false, .setShowConfirmDialog false, .setLoading true,
          .onClick 1 s1.button] ∧
        s1.reactions = [] ++ [.finally] ∧
        ∀ outcome, (settle 0 outcome s1).button.loading = false ∧
          (settle 0 outcome s1).log = s1.log ++ [.setLoading false] ∧
          (settle 0 outcome s1).reactions = [] :=
  ⟨by decide,
    (executeAction_loading_until_settled 0 (initial callbackButton) (by decide)).1 1 rfl⟩

/-- C9: when `executeAction` dispatches to the navigator, a `then` handler is
pending on the returned promise: if the promise fulfils, `loading` is set to
false; if it rejects, nothing is written and `loading` remains true. -/
theorem executeAction_page_asymmetry (fuel : Nat) (s : State) (page : String)
    (hmode : isLink s = false) (honClick : s.button.onClick = none)
    (haction : truthy s.button.action = false) (hpage : s.button.page = some page)
    (hne : page ≠ "") :
    ∃ s1, executeAction (fuel + 1) s = some (s1, .returnUndefined) ∧
      s1.button.loading = true ∧
      s1.log = s.log ++ [.setLoading false, .setShowConfirmDialog false, .setLoading true,
        .transitionTo "openxpki" (some page)] ∧
      s1.reactions = s.reactions ++ [.then] ∧
      (settle s.reactions.length .fulfilled s1).button.loading = false ∧
      (settle s.reactions.length .fulfilled s1).log = s1.log ++ [.setLoading false] ∧
      (settle s.reactions.length .rejected s1).button.loading = true ∧
      (settle s.reactions.length .rejected s1).log = s1.log := by
  simp_all [executeAction, isLink, resetConfirmState, setLoading, setShowConfirmDialog, emit,
    truthy, settle]

/-- Witness for C9 on a descriptor with a page only. -/
theorem executeAction_page_asymmetry_witness :
    isLink (initial pageButton) = false ∧
      ∃ s1, executeAction 1 (initial pageButton) = some (s1, .returnUndefined) ∧
        s1.button.loading = true ∧
        s1.log = [] ++ [.setLoading false, .setShowConfirmDialog false, .setLoading true,
          .transitionTo "openxpki" (some "home")] ∧
        s1.reactions = [] ++ [.then] ∧
        (settle 0 .fulfilled s1).button.loading = false ∧
        (settle 0 .fulfilled s1).log = s1.log ++ [.setLoading false] ∧
        (settle 0 .rejected s1).button.loading = true ∧
        (settle 0 .rejected s1).log = s1.log :=
  ⟨by decide,
    executeAction_page_asymmetry 0 (initial pageButton) "home" (by decide) rfl (by decide) rfl
      (by decide)⟩

/-- C10: in link mode without confirm, a user click on target `t` with the replay
flag clear returns false (the interception is suppressed once) after exactly one
synthetic click was dispatched on `t`, whose listener run returned `undefined`
(not intercepted).  No write opens the confirm dialog, which is closed at the
end; no collaborator is called; the replay flag is false at the end. -/
theorem click_link_replay (fuel : Nat) (t : Nat) (s : State)
    (hmode : isLink s = true) (hconfirm : s.button.confirm = none)
    (hskip : s.skipClickHandler = false) :
    ∃ s1, click (fuel + 3) (some ⟨t⟩) s = some (s1, .returnFalse) ∧
      s1.log = s.log ++ [.setLoading false, .setShowConfirmDialog false, .dispatchEvent t,
        .listenerDone .returnUndefined] ∧
      s1.showConfirmDialog = false ∧
      s1.skipClickHandler = false ∧
      s1.clickTarget = some t ∧
      collaboratorCalls s1.log = collaboratorCalls s.log ∧
      s1.reactions = s.reactions ∧
      s1.button = { s.button with loading := false } := by
  simp_all [click, executeAction, isLink, resetConfirmState, setLoading, setShowConfirmDialog,
    emit, collaboratorCalls, List.filter_append]

/-- Witness for C10 on a link without a confirm entry. -/
theorem click_link_replay_witness :
    isLink (initial linkButton) = true ∧
      ∃ s1, click 3 (some ⟨7⟩) (initial linkButton) = some (s1, .returnFalse) ∧
        s1.log = [] ++ [.setLoading false, .setShowConfirmDialog false, .dispatchEvent 7,
          .listenerDone .returnUndefined] ∧
        s1.showConfirmDialog = false ∧
        s1.skipClickHandler = false ∧
        s1.clickTarget = some 7 ∧
        collaboratorCalls s1.log = collaboratorCalls [] ∧
        s1.reactions = [] ∧
        s1.button = { (initial linkButton).button with loading := false } :=
  ⟨by decide, click_link_replay 0 7 (initial linkButton) (by decide) rfl rfl⟩

/-! ## The confirm path, the replay flag and the style lookup -/

/-- C11: in link mode with confirm, a click on target `t` opens the dialog and
records `t`; confirming then runs `executeAction`, which sets the replay flag
and dispatches exactly one click on `t`; that click finds the flag set, clears
it and returns `undefined` without doing anything else.  Afterwards `loading`
is false, the dialog is closed, the replay flag is false and no collaborator
was called. -/
theorem confirm_link_replay (fuel : Nat) (t : Nat) (s : State) (confirm : Confirm)
    (hmode : isLink s = true) (hconfirm : s.button.confirm = some confirm)
    (hskip : s.skipClickHandler = false) :
    ∃ s1 mid s2,
      click (fuel + 1) (some ⟨t⟩) s = some (s1, .returnFalse) ∧
      s1.showConfirmDialog = true ∧ s1.button.loading = true ∧ s1.clickTarget = some t ∧
      mid.skipClickHandler = true ∧
      mid.log = s1.log ++ [.setLoading false, .setShowConfirmDialog false, .dispatchEvent t] ∧
      click (fuel + 1) (some ⟨t⟩) mid =
        some ({ mid with skipClickHandler := false }, .returnUndefined) ∧
      executeAction (fuel + 2) s1 = some (s2, .returnUndefined) ∧
      s2 = emit (.listenerDone .returnUndefined) { mid with skipClickHandler := false } ∧
      s2.log = s1.log ++ [.setLoading false, .setShowConfirmDialog false, .dispatchEvent t,
        .listenerDone .returnUndefined] ∧
      s2.button.loading = false ∧
      s2.showConfirmDialog = false ∧
      s2.skipClickHandler = false ∧
      collaboratorCalls s2.log = collaboratorCalls s.log ∧
      s2.reactions = s.reactions := by
  refine ⟨setShowConfirmDialog true (setLoading true { s with clickTarget := some t }),
    emit (.dispatchEvent t)
      { resetConfirmState
          (setShowConfirmDialog true (setLoading true { s with clickTarget := some t })) with
        skipClickHandler := true }, _, ?_, rfl, rfl, rfl, rfl, ?_, ?_, ?_, rfl, ?_, rfl, rfl, rfl,
    ?_, rfl⟩
  · simp [click, hconfirm, hskip]
  · simp [emit, resetConfirmState, setLoading, setShowConfirmDialog]
  · simp [click, emit]
  · simp_all [executeAction, click, isLink, resetConfirmState, setLoading, setShowConfirmDialog,
      emit]
  · simp [emit, resetConfirmState, setLoading, setShowConfirmDialog]
  · simp [emit, resetConfirmState, setLoading, setShowConfirmDialog, collaboratorCalls,
      List.filter_append]

/-- Witness for C11 on a link with a confirm entry, clicked on target 7. -/
theorem confirm_link_replay_witness :
    isLink (initial confirmLinkButton) = true ∧
      ∃ s1 mid s2,
        click 1 (some ⟨7⟩) (initial confirmLinkButton) = some (s1, .returnFalse) ∧
        s1.showConfirmDialog = true ∧ s1.button.loading = true ∧ s1.clickTarget = some 7 ∧
        mid.skipClickHandler = true ∧
        mid.log = s1.log ++ [.setLoading false, .setShowConfirmDialog false, .dispatchEvent 7] ∧
        click 1 (some ⟨7⟩) mid =
          some ({ mid with skipClickHandler := false }, .returnUndefined) ∧
        executeAction 2 s1 = some (s2, .returnUndefined) ∧
        s2 = emit (.listenerDone .returnUndefined) { mid with skipClickHandler := false } ∧
        s2.log = s1.log ++ [.setLoading false, .setShowConfirmDialog false, .dispatchEvent 7,
          .listenerDone .returnUndefined] ∧
        s2.button.loading = false ∧
        s2.showConfirmDialog = false ∧
        s2.skipClickHandler = false ∧
        collaboratorCalls s2.log = collaboratorCalls (initial confirmLinkButton).log ∧
        s2.reactions = (initial confirmLinkButton).reactions :=
  ⟨by decide,
    confirm_link_replay 0 7 (initial confirmLinkButton) ⟨"Really sure?", "Think!", none, none⟩
      (by decide) rfl rfl⟩

/-- C12: from any state `resetConfirmState` sets `loading` to false and closes
the confirm dialog; its only effects are these two writes (no collaborator call,
no dispatched click, no promise handler), and the replay flag, the recorded
target and every other field of the descriptor are unchanged. -/
theorem resetConfirmState_frame (s : State) :
    (resetConfirmState s).button.loading = false ∧
    (resetConfirmState s).showConfirmDialog = false ∧
    (resetConfirmState s).log = s.log ++ [.setLoading false, .setShowConfirmDialog false] ∧
    collaboratorCalls (resetConfirmState s).log = collaboratorCalls s.log ∧
    (resetConfirmState s).reactions = s.reactions ∧
    (resetConfirmState s).skipClickHandler = s.skipClickHandler ∧
    (resetConfirmState s).clickTarget = s.clickTarget ∧
    (resetConfirmState s).button = { s.button with loading := false } := by
  simp [resetConfirmState, setLoading, setShowConfirmDialog, collaboratorCalls,
    List.filter_append]

/-- C13: for every descriptor of the data model, in which an `href` that is
present is a non-empty string, `isLink` is true exactly when `href` is present
and false exactly when it is absent. -/
theorem isLink_iff_href_present (s : State)
    (hdata : ∀ href, s.button.href = some href → href ≠ "") :
    (isLink s = true ↔ s.button.href.isSome = true) ∧
    (isLink s = false ↔ s.button.href = none) := by
  unfold isLink truthy
  cases h : s.button.href with
  | none => simp
  | some href => simpa using hdata href h

/-- Witness for C13 on a link descriptor and on a descriptor without `href`. -/
theorem isLink_iff_href_present_witness :
    (∀ href, (initial linkButton).button.href = some href → href ≠ "") ∧
      ((isLink (initial linkButton) = true ↔ (initial linkButton).button.href.isSome = true) ∧
        (isLink (initial linkButton) = false ↔ (initial linkButton).button.href = none)) ∧
      isLink (initial linkButton) = true ∧
      isLink (initial plainButton) = false :=
  ⟨by intro href h; cases h; decide,
    isLink_iff_href_present (initial linkButton) (by intro href h; cases h; decide),
    by decide, by decide⟩

theorem lookup_eq_none (key : String) :
    ∀ l : List (String × String), key ∉ l.map Prod.fst → l.lookup key = none
  | [], _ => rfl
  | (k, v) :: l, h => by
      simp only [List.map_cons, List.mem_cons, not_or] at h
      have hk : (key == k) = false := by simpa using h.1
      simp [List.lookup, hk, lookup_eq_none key l h.2]

/-- C14, as the code has it: when `loading` is false and `format` is a non-empty
string that is neither one of the twelve keys of `format2css` nor the name of a
property inherited from `Object.prototype`, `additionalCssClass` reports the
unknown format on the console and returns the empty string, which is not the
neutral style returned when `format` is absent. -/
theorem additionalCssClass_unknown_format (s : State) (format : String)
    (hloading : s.button.loading = false) (hformat : s.button.format = some format)
    (hne : format ≠ "") (hunknown : format ∉ format2css.map Prod.fst)
    (hproto : format ∉ objectPrototypeKeys) :
    additionalCssClass s = (.string "", [unknownFormatMessage s.button.label format]) ∧
    additionalCssClass { s with button := { s.button with format := none } } =
      (.string "btn-light border-secondary", []) := by
  have hlookup : format2css.lookup format = none := lookup_eq_none format _ hunknown
  constructor
  · simp [additionalCssClass, hloading, hformat, hne, format2cssGet, hlookup, hproto]
  · simp [additionalCssClass, hloading]

/-- Witness for C14 on the format `bogus`. -/
theorem additionalCssClass_unknown_format_witness :
    (initial bogusFormatButton).button.loading = false ∧
      additionalCssClass (initial bogusFormatButton) =
        (.string "", [unknownFormatMessage (initial bogusFormatButton).button.label "bogus"]) ∧
      additionalCssClass
          { initial bogusFormatButton with
            button := { (initial bogusFormatButton).button with format := none } } =
        (.string "btn-light border-secondary", []) :=
  ⟨rfl, additionalCssClass_unknown_format (initial bogusFormatButton) "bogus" rfl rfl
    (by decide) (by decide) (by decide)⟩

/-- Counterexample to C14 as stated: for the unrecognized format `bogus` the
result is the empty string, not the neutral style of an absent format.  Two more
unrecognized formats are not reported at all: for `constructor` the inherited
property is returned, and for the empty string the neutral style. -/
theorem additionalCssClass_bogus :
    (additionalCssClass (initial bogusFormatButton)).1 = .string "" ∧
    (additionalCssClass (initial plainButton)).1 = .string "btn-light border-secondary" ∧
    (additionalCssClass (initial bogusFormatButton)).1 ≠
      (additionalCssClass (initial plainButton)).1 ∧
    additionalCssClass (initial constructorFormatButton) = (.inherited "constructor", []) ∧
    additionalCssClass (initial { plainButton with format := some "" }) =
      (.string "btn-light border-secondary", []) := by
  decide

/-- C15: when `loading` is true `additionalCssClass` returns `oxi-btn-loading`
whatever `format` is; when `loading` is false and `format` is one of the twelve
keys of `format2css` it returns the entry of the table; when `loading` is false
and `format` is absent it returns the neutral style.  Nothing is reported on the
console in these cases. -/
theorem additionalCssClass_lookup (s : State) :
    (s.button.loading = true → additionalCssClass s = (.string "oxi-btn-loading", [])) ∧
    (∀ format css, s.button.loading = false → s.button.format = some format →
      (format, css) ∈ format2css → additionalCssClass s = (.string css, [])) ∧
    (s.button.loading = false → s.button.format = none →
      additionalCssClass s = (.string "btn-light border-secondary", [])) := by
  refine ⟨?_, ?_, ?_⟩
  · intro h
    simp [additionalCssClass, h]
  · intro format css hl hf hmem
    simp only [format2css, List.mem_cons, List.mem_singleton, Prod.mk.injEq,
      List.not_mem_nil, or_false] at hmem
    rcases hmem with h | h | h | h | h | h | h | h | h | h | h | h <;>
      obtain ⟨rfl, rfl⟩ := h <;>
      simp [additionalCssClass, hl, hf, format2cssGet, format2css, List.lookup]
  · intro hl hf
    simp [additionalCssClass, hl, hf]

/-- Witness for C15: a loading descriptor with an unrecognized format, and the
format `tile`. -/
theorem additionalCssClass_lookup_witness :
    additionalCssClass (setLoading true (initial bogusFormatButton)) =
        (.string "oxi-btn-loading", []) ∧
      additionalCssClass (initial { plainButton with format := some "tile" }) =
        (.string "oxi-btn-tile", []) :=
  ⟨(additionalCssClass_lookup (setLoading true (initial bogusFormatButton))).1 rfl,
    (additionalCssClass_lookup (initial { plainButton with format := some "tile" })).2.1
      "tile" "oxi-btn-tile" rfl rfl (by decide)⟩

/-- C16: when the replay flag is set, `click` clears the flag and returns
`undefined`; nothing else changes: the descriptor with `loading`, the dialog
state, the recorded target, the log of effects and the pending handlers are the
same, so `executeAction` did not run and no collaborator was called. -/
theorem click_replay_passes (fuel : Nat) (event : Option ClickEvent) (s : State)
    (hskip : s.skipClickHandler = true) :
    click (fuel + 1) event s = some ({ s with skipClickHandler := false }, .returnUndefined) := by
  simp [click, hskip]

/-- Witness for C16 on a link whose replay flag is set. -/
theorem click_replay_passes_witness :
    ({ initial linkButton with skipClickHandler := true } : State).skipClickHandler = true ∧
      click 1 (some ⟨7⟩) { initial linkButton with skipClickHandler := true } =
        some ({ ({ initial linkButton with skipClickHandler := true } : State) with
                skipClickHandler := false }, .returnUndefined) :=
  ⟨rfl, click_replay_passes 0 (some ⟨7⟩) { initial linkButton with skipClickHandler := true } rfl⟩

/-- C17: nothing guards against a second dispatch.  For an action-mode
descriptor without confirm that has something to dispatch, a click calls the
collaborator and leaves `loading` true with the handler pending; a second click
in that state, before any settlement, calls the same collaborator again, so the
log holds two calls and two handlers are pending. -/
theorem click_twice_dispatches_twice (fuel : Nat) (event1 event2 : Option ClickEvent)
    (s : State) (hmode : isLink s = false) (hconfirm : s.button.confirm = none)
    (hskip : s.skipClickHandler = false)
    (hsome : s.button.onClick.isSome = true ∨ truthy s.button.action = true ∨
      truthy s.button.page = true) :
    ∃ call reaction s1,
      click (fuel + 2) event1 s = some (s1, .returnFalse) ∧
      s1.button.loading = true ∧
      s1.reactions = s.reactions ++ [reaction] ∧
      collaboratorCalls s1.log = collaboratorCalls s.log ++ [call] ∧
      ∃ s2, click (fuel + 2) event2 s1 = some (s2, .returnFalse) ∧
        collaboratorCalls s2.log = collaboratorCalls s.log ++ [call, call] ∧
        s2.reactions = s.reactions ++ [reaction, reaction] ∧
        s2.button.loading = true := by
  unfold isLink at hmode
  cases hon : s.button.onClick with
  | some callback =>
      refine ⟨.onClick callback { s.button with loading := true }, .finally, ?_⟩
      simp [click, executeAction, isLink, resetConfirmState, setLoading, setShowConfirmDialog,
        emit, hmode, hconfirm, hskip, hon, collaboratorCalls, List.filter_append]
  | none =>
      by_cases hact : truthy s.button.action = true
      · refine ⟨.updateRequest s.button.action, .finally, ?_⟩
        simp [click, executeAction, isLink, resetConfirmState, setLoading, setShowConfirmDialog,
          emit, hmode, hconfirm, hskip, hon, hact, collaboratorCalls, List.filter_append]
      · have hpage : truthy s.button.page = true := by
          rcases hsome with h | h | h
          · simp [hon] at h
          · exact absurd h hact
          · exact h
        have hact2 : truthy s.button.action = false := by simpa using hact
        refine ⟨.transitionTo "openxpki" s.button.page, .then, ?_⟩
        simp [click, executeAction, isLink, resetConfirmState, setLoading, setShowConfirmDialog,
          emit, hmode, hconfirm, hskip, hon, hact2, hpage, collaboratorCalls,
          List.filter_append]

/-- Witness for C17 on a descriptor with an `onClick` callback: two clicks, two
calls of the callback. -/
theorem click_twice_dispatches_twice_witness :
    isLink (initial callbackButton) = false ∧
      ∃ call reaction s1,
        click 2 none (initial callbackButton) = some (s1, .returnFalse) ∧
        s1.button.loading = true ∧
        s1.reactions = (initial callbackButton).reactions ++ [reaction] ∧
        collaboratorCalls s1.log = collaboratorCalls (initial callbackButton).log ++ [call] ∧
        ∃ s2, click 2 none s1 = some (s2, .returnFalse) ∧
          collaboratorCalls s2.log =
            collaboratorCalls (initial callbackButton).log ++ [call, call] ∧
          s2.reactions = (initial callbackButton).reactions ++ [reaction, reaction] ∧
          s2.button.loading = true :=
  ⟨by decide,
    click_twice_dispatches_twice 0 none none (initial callbackButton) (by decide) rfl rfl
      (by decide)⟩

/-- C18: when `executeAction` throws because the action-mode descriptor has no
`onClick` and neither a non-empty `action` nor a non-empty `page` (in
particular when all three are absent), the state it leaves has `loading` true
and the confirm dialog closed, whatever the two flags were before; the rest of
the descriptor is unchanged. -/
theorem executeAction_error_state (fuel : Nat) (s : State) (hmode : isLink s = false)
    (honClick : s.button.onClick = none) (haction : truthy s.button.action = false)
    (hpage : truthy s.button.page = false) :
    ∃ s1 message, executeAction (fuel + 1) s = some (s1, .throw (.error message)) ∧
      s1.button.loading = true ∧
      s1.showConfirmDialog = false ∧
      s1.button = { s.button with loading := true } ∧
      s1.log = s.log ++ [.setLoading false, .setShowConfirmDialog false, .setLoading true] := by
  simp_all [executeAction, isLink, resetConfirmState, setLoading, setShowConfirmDialog]

/-- Witness for C18 on a descriptor with only a label, starting with `loading`
false and the dialog open. -/
theorem executeAction_error_state_witness :
    isLink (setShowConfirmDialog true (initial plainButton)) = false ∧
      (setShowConfirmDialog true (initial plainButton)).showConfirmDialog = true ∧
      (setShowConfirmDialog true (initial plainButton)).button.loading = false ∧
      ∃ s1 message, executeAction 1 (setShowConfirmDialog true (initial plainButton)) =
          some (s1, .throw (.error message)) ∧
        s1.button.loading = true ∧
        s1.showConfirmDialog = false ∧
        s1.button = { (setShowConfirmDialog true (initial plainButton)).button with
          loading := true } ∧
        s1.log = (setShowConfirmDialog true (initial plainButton)).log ++
          [.setLoading false, .setShowConfirmDialog false, .setLoading true] :=
  ⟨by decide, rfl, rfl,
    executeAction_error_state 0 (setShowConfirmDialog true (initial plainButton)) (by decide)
      rfl (by decide) (by decide)⟩

end OxiButtonRawComponent

namespace OxiSectionKeyvalueComponent

open Defuse (JSValue)

/-! ## Properties of the key/value section component -/

/-- C20: with `def.data` absent `items` is the empty list.  Otherwise the entries
of the data stay where they are, an entry with format `head` gets `isHead = 1`
and every other entry is unchanged, and `items` is the list of these entries in
their order without those whose format is `raw` and whose value is the empty
string. -/
theorem items_spec (d : SectionDef) :
    (d.data = none → items d = (d, [])) ∧
    (∀ entries, d.data = some entries →
      ∃ marked, (items d).1.data = some marked ∧
        marked.length = entries.length ∧
        (∀ k e, entries.get? k = some e →
          (e.format = some "head" → marked.get? k = some { e with isHead := some 1 }) ∧
          (e.format ≠ some "head" → marked.get? k = some e)) ∧
        (items d).2 =
          marked.filter (fun e => !(e.format == some "raw" && e.value == .string "")) ∧
        (items d).2.Sublist marked) := by
  constructor
  · intro h
    cases d with
    | mk data =>
        simp only at h
        subst h
        rfl
  · intro entries h
    refine ⟨entries.map markHead, by simp [items, h], by simp, ?_, ?_, ?_⟩
    · intro k e hk
      have hk2 : entries[k]? = some e := by simpa using hk
      constructor
      · intro hf
        simp [hk2, markHead, hf]
      · intro hf
        simp [hk2, markHead, hf]
    · simp only [items, h, Option.getD_some]
      apply List.filter_congr
      intro e _
      cases h1 : (e.format == some "raw") <;> cases h2 : (e.value == JSValue.string "") <;>
        simp [bne, h1, h2]
    · simp only [items, h, Option.getD_some]
      exact List.filter_sublist _

/-- Witness for C20 on `sampleSection`: the head entry is marked, the empty raw
entry is left out, the other entries keep their order and their content. -/
theorem items_spec_witness :
    sampleSection.data.isSome = true ∧
      (items sampleSection).2 =
        [⟨some "Certificate", some "head", .undefined, some 1⟩,
         ⟨some "Subject", none, .string "CN=a", none⟩,
         ⟨some "Body", some "raw", .string "<b>x</b>", none⟩] ∧
      ∃ marked, (items sampleSection).1.data = some marked ∧
        marked.length = (sampleSection.data.getD []).length ∧
        (∀ k e, (sampleSection.data.getD []).get? k = some e →
          (e.format = some "head" → marked.get? k = some { e with isHead := some 1 }) ∧
          (e.format ≠ some "head" → marked.get? k = some e)) ∧
        (items sampleSection).2 =
          marked.filter (fun e => !(e.format == some "raw" && e.value == .string "")) ∧
        (items sampleSection).2.Sublist marked :=
  ⟨rfl, by decide, (items_spec sampleSection).2 (sampleSection.data.getD []) rfl⟩

end OxiSectionKeyvalueComponent
